import Mathlib

/-!
Shallow embedding of the WordPress operator's pod-template compiler
(`pkg/internal/wordpress/pod_template.go`): the data model of the intent
object, the environment/volume/mount/init-step derivation functions, and the
two template assemblers, together with theorems settling the spec claims.
-/

set_option autoImplicit false

namespace WPOp

/-! ## Strings-as-paths: Go `path.Join` / `path.Clean`

`routes()` and `mediaEnv()` call Go's `path.Join`. We embed its semantics:
`Join(a, b)` skips leading empty elements, joins the rest with `/` and
applies `Clean` (segment-wise resolution of empty, `.` and `..` segments,
preserving rootedness). -/

/-- Split a character list on the slash character. -/
def splitSlashAux : List Char → List Char → List (List Char)
  | [], acc => [acc.reverse]
  | c :: cs, acc =>
    if c = '/' then acc.reverse :: splitSlashAux cs [] else splitSlashAux cs (c :: acc)

/-- Process the segments of a path the way Go `path.Clean` does: drop empty
and `.` segments, resolve `..` against the segment stack (dropping it at the
root when the path is rooted, accumulating it when not). -/
def cleanSegsAux (rooted : Bool) : List (List Char) → List (List Char) → List (List Char)
  | [], stack => stack.reverse
  | seg :: rest, stack =>
    if seg = [] ∨ seg = ['.'] then cleanSegsAux rooted rest stack
    else if seg = ['.', '.'] then
      match stack with
      | [] => if rooted then cleanSegsAux rooted rest [] else cleanSegsAux rooted rest [seg]
      | top :: stk =>
        if top = ['.', '.'] then cleanSegsAux rooted rest (seg :: top :: stk)
        else cleanSegsAux rooted rest stk
    else cleanSegsAux rooted rest (seg :: stack)

/-- Go `path.Clean` on a nonempty path (the only shape `Join` feeds it). -/
def cleanPath (s : String) : String :=
  let cs := s.data
  let rooted := cs.head? = some '/'
  let segs := cleanSegsAux rooted (splitSlashAux cs []) []
  match segs with
  | [] => if rooted then "/" else "."
  | _ =>
    (if rooted then "/" else "") ++ String.intercalate "/" (segs.map (fun l => String.mk l))

/-- Go `path.Join` restricted to two elements: skip leading empty elements,
join with a slash, clean. -/
def pathJoin (a b : String) : String :=
  if a ≠ "" then cleanPath (a ++ "/" ++ b)
  else if b ≠ "" then cleanPath b
  else ""

/-! ## Kubernetes core/v1 shapes (the fields the compiler reads or writes) -/

/-- `corev1.ObjectFieldSelector`. -/
structure ObjectFieldSelector where
  fieldPath : String
  deriving DecidableEq, Repr

/-- `corev1.EnvVarSource` (only the field-ref form is constructed by this
code; value-from payloads of user env entries are carried opaquely). -/
structure EnvVarSource where
  fieldRef : Option ObjectFieldSelector := none
  deriving DecidableEq, Repr

/-- `corev1.EnvVar`. -/
structure EnvVar where
  name : String
  value : String := ""
  valueFrom : Option EnvVarSource := none
  deriving DecidableEq, Repr

/-- `corev1.EnvFromSource`, carried by name of the referenced secret. -/
structure EnvFromSource where
  secretRefName : String
  deriving DecidableEq, Repr

/-- `corev1.VolumeMount`. -/
structure VolumeMount where
  mountPath : String
  name : String
  readOnly : Bool := false
  subPath : String := ""
  deriving DecidableEq, Repr

/-- `corev1.EmptyDirVolumeSource`; the size limit is carried as an opaque
quantity string. -/
structure EmptyDirVolumeSource where
  sizeLimit : Option String := none
  deriving DecidableEq, Repr

/-- `corev1.PersistentVolumeClaimVolumeSource`. -/
structure PersistentVolumeClaimVolumeSource where
  claimName : String
  deriving DecidableEq, Repr

/-- `corev1.HostPathVolumeSource`. -/
structure HostPathVolumeSource where
  path : String
  deriving DecidableEq, Repr

/-- `corev1.VolumeSource` (the three variants this compiler produces). -/
structure VolumeSource where
  emptyDir : Option EmptyDirVolumeSource := none
  persistentVolumeClaim : Option PersistentVolumeClaimVolumeSource := none
  hostPath : Option HostPathVolumeSource := none
  deriving DecidableEq, Repr

/-- `corev1.Volume`. -/
structure Volume where
  name : String
  volumeSource : VolumeSource
  deriving DecidableEq, Repr

/-- `corev1.HTTPHeader`. -/
structure HTTPHeader where
  name : String
  value : String
  deriving DecidableEq, Repr

/-- `corev1.HTTPGetAction` (the port is always given as an integer here). -/
structure HTTPGetAction where
  path : String
  port : Int
  httpHeaders : List HTTPHeader := []
  deriving DecidableEq, Repr

/-- `corev1.ExecAction`. -/
structure ExecAction where
  command : List String
  deriving DecidableEq, Repr

/-- `corev1.Handler`. -/
structure Handler where
  httpGet : Option HTTPGetAction := none
  exec : Option ExecAction := none
  deriving DecidableEq, Repr

/-- `corev1.Probe`. -/
structure Probe where
  handler : Handler
  failureThreshold : Int := 0
  initialDelaySeconds : Int := 0
  periodSeconds : Int := 0
  successThreshold : Int := 0
  timeoutSeconds : Int := 0
  deriving DecidableEq, Repr

/-- `corev1.Lifecycle`. -/
structure Lifecycle where
  postStart : Option Handler := none
  preStop : Option Handler := none
  deriving DecidableEq, Repr

/-- `corev1.ContainerPort`. -/
structure ContainerPort where
  name : String
  containerPort : Int
  deriving DecidableEq, Repr

/-- `corev1.SecurityContext` (the fields this compiler sets). -/
structure SecurityContext where
  runAsUser : Option Int := none
  procMount : Option String := none
  deriving DecidableEq, Repr

/-- `corev1.PodSecurityContext` (only the fs-group field is ever set). -/
structure PodSecurityContext where
  fsGroup : Option Int := none
  deriving DecidableEq, Repr

/-- `corev1.Container` (the fields this compiler reads or writes; resources
are carried as an opaque string). -/
structure Container where
  name : String := ""
  image : String := ""
  imagePullPolicy : String := ""
  command : List String := []
  args : List String := []
  env : List EnvVar := []
  envFrom : List EnvFromSource := []
  volumeMounts : List VolumeMount := []
  ports : List ContainerPort := []
  resources : String := ""
  securityContext : Option SecurityContext := none
  lifecycle : Option Lifecycle := none
  readinessProbe : Option Probe := none
  livenessProbe : Option Probe := none
  deriving DecidableEq, Repr

/-- Label/annotation maps, represented as association lists whose list order
is the (nondeterministic, in Go) map iteration order. -/
abbrev Labels := List (String × String)

/-- `metav1.ObjectMeta` (labels and annotations). -/
structure ObjectMeta where
  labels : Labels := []
  annotations : Labels := []
  deriving DecidableEq, Repr

/-- `corev1.PodSpec` (the fields this compiler sets; tolerations and affinity
are carried opaquely). -/
structure PodSpec where
  initContainers : List Container := []
  containers : List Container := []
  volumes : List Volume := []
  restartPolicy : String := ""
  imagePullSecrets : List String := []
  serviceAccountName : String := ""
  nodeSelector : Labels := []
  tolerations : List String := []
  affinity : Option String := none
  priorityClassName : String := ""
  securityContext : Option PodSecurityContext := none
  deriving DecidableEq, Repr

/-- `corev1.PodTemplateSpec`. -/
structure PodTemplateSpec where
  metadata : ObjectMeta := {}
  spec : PodSpec := {}
  deriving DecidableEq, Repr

/-! ## The intent object (`wpapiv1.Wordpress`) -/

/-- `wpapiv1.GitVolumeSource`. -/
structure GitVolumeSource where
  repository : String
  gitRef : String := ""
  env : List EnvVar := []
  envFrom : List EnvFromSource := []
  emptyDir : Option EmptyDirVolumeSource := none
  deriving DecidableEq, Repr

/-- `wpapiv1.CodeVolumeSpec`: the mutually exclusive code-source variants
plus mount-path configuration. The persistent-volume-claim field only
matters by presence (the claim template itself is never read here), so it is
carried opaquely. -/
structure CodeVolumeSpec where
  gitDir : Option GitVolumeSource := none
  persistentVolumeClaim : Option String := none
  hostPath : Option HostPathVolumeSource := none
  emptyDir : Option EmptyDirVolumeSource := none
  mountPath : String := ""
  contentSubPath : String := ""
  configSubPath : String := ""
  readOnly : Bool := false
  deriving DecidableEq, Repr

/-- `wpapiv1.S3VolumeSource` (remote backend descriptor). -/
structure S3VolumeSource where
  bucket : String
  pathPrefix : String := ""
  env : List EnvVar := []
  deriving DecidableEq, Repr

/-- `wpapiv1.GCSVolumeSource` (remote backend descriptor). -/
structure GCSVolumeSource where
  bucket : String
  pathPrefix : String := ""
  env : List EnvVar := []
  deriving DecidableEq, Repr

/-- `wpapiv1.MediaVolumeSpec`: two independent backend descriptors plus the
mutually exclusive mount-source variants. -/
structure MediaVolumeSpec where
  s3VolumeSource : Option S3VolumeSource := none
  gcsVolumeSource : Option GCSVolumeSource := none
  persistentVolumeClaim : Option String := none
  hostPath : Option HostPathVolumeSource := none
  emptyDir : Option EmptyDirVolumeSource := none
  mountPath : String := ""
  contentSubPath : String := ""
  readOnly : Bool := false
  deriving DecidableEq, Repr

/-- `wpapiv1.RouteSpec`: one (domain, path) entry. -/
structure RouteSpec where
  domain : String
  path : String := ""
  deriving DecidableEq, Repr

/-- `wpapiv1.WordpressBootstrapSpec` (only its extra env and env-from lists
are read by this compiler). -/
structure WordpressBootstrapSpec where
  env : List EnvVar := []
  envFrom : List EnvFromSource := []
  deriving DecidableEq, Repr

/-- `wpapiv1.WordpressSpec`: the fields read by the pod-template compiler. -/
structure WordpressSpec where
  image : String := ""
  imagePullPolicy : String := ""
  env : List EnvVar := []
  envFrom : List EnvFromSource := []
  volumeMounts : List VolumeMount := []
  volumes : List Volume := []
  sidecars : List Container := []
  initContainers : List Container := []
  codeVolumeSpec : Option CodeVolumeSpec := none
  mediaVolumeSpec : Option MediaVolumeSpec := none
  routes : List RouteSpec := []
  wordpressBootstrapSpec : Option WordpressBootstrapSpec := none
  readinessProbe : Option Probe := none
  livenessProbe : Option Probe := none
  wordpressPathPrefix : String := ""
  serviceAccountName : String := ""
  imagePullSecrets : List String := []
  nodeSelector : Labels := []
  tolerations : List String := []
  affinity : Option String := none
  priorityClassName : String := ""
  podMetadata : Option ObjectMeta := none
  resources : String := ""
  deriving DecidableEq, Repr

/-- The wrapped `wordpress.Wordpress` object. The name, namespace and spec
come from the resource itself. `mainDomain`, `homeURL`, `siteURL`, the three
component names and the two label sets are computed by repository code
outside this file's source (`MainDomain`, `HomeURL`, `SiteURL`,
`ComponentName`, `WebPodLabels`, `JobPodLabels`); they are modelled here as
given attributes of the intent, since this compiler only passes their values
through. -/
structure Wordpress where
  name : String := ""
  namespaceName : String := ""
  spec : WordpressSpec := {}
  mainDomain : String := ""
  homeURL : String := ""
  siteURL : String := ""
  secretName : String := ""
  codePVCName : String := ""
  mediaPVCName : String := ""
  webPodLabels : Labels := []
  jobPodLabels : Labels := []
  deriving DecidableEq, Repr

/-! ## Constants -/

/-- `InternalHTTPPort`. -/
def InternalHTTPPort : Int := 8080

/-- `MetricsExporterPort`. -/
def MetricsExporterPort : Int := 9145

/-- `codeVolumeName`. -/
def codeVolumeName : String := "code"

/-- `mediaVolumeName`. -/
def mediaVolumeName : String := "media"

/-- `s3Prefix`. -/
def s3Prefix : String := "s3"

/-- `gcsPrefix`. -/
def gcsPrefix : String := "gs"

/-- `prepareVolumesImage`. -/
def prepareVolumesImage : String :=
  "gcr.io/google-containers/busybox@sha256:545e6a6310a27636260920bc07b994a299b6708a1b26910cfefd335fdfb60d2b"

/-- `wwwDataUserID`. -/
def wwwDataUserID : Int := 33

/-- Modelled from the spec: the code fetch destination, a fixed well-known
mount path defined by repository code outside this file's source. -/
def codeSrcMountPath : String := "/var/run/presslabs.org/code/src"

/-- Modelled from the spec: the fixed configuration mount path, defined by
repository code outside this file's source. -/
def configMountPath : String := "/app/config"

/-- Modelled from the spec: the log directory mount path, defined by
repository code outside this file's source. -/
def knativeVarLogMountPath : String := "/var/log"

/-- Modelled from the spec: the internal scratch directory mount path,
defined by repository code outside this file's source. -/
def knativeInternalMountPath : String := "/var/knative-internal"

/-- Modelled from the spec: the name of the size-capped log volume, defined
by repository code outside this file's source. -/
def knativeVarLogVolume : String := "log"

/-- Modelled from the spec: the name of the internal scratch volume, defined
by repository code outside this file's source. -/
def knativeInternalVolume : String := "knative-internal"

/-- Modelled from the spec: the size limit of the log volume, defined by
repository code outside this file's source; carried as an opaque quantity. -/
def varLogSizeLimit : String := "100Mi"

/-- Modelled from the spec: `options.GitCloneImage`, the image of the
code-fetch step, defined by repository code outside this file's source. -/
def gitCloneImage : String := "docker.io/library/buildpack-deps:stable-scm"

/-- `gitCloneScript`: the fixed clone script run by the code-fetch step. -/
def gitCloneScript : String :=
  "#!/bin/bash\nset -e\nset -o pipefail\n\nexport HOME=\"$(mktemp -d)\"\n" ++
  "export GIT_SSH_COMMAND=\"ssh -o UserKnownHostsFile=$HOME/.ssh/knonw_hosts -o StrictHostKeyChecking=no\"\n\n" ++
  "test -d \"$HOME/.ssh\" || mkdir \"$HOME/.ssh\"\n\n" ++
  "if [ ! -z \"$SSH_RSA_PRIVATE_KEY\" ] ; then\n" ++
  "    echo \"$SSH_RSA_PRIVATE_KEY\" > \"$HOME/.ssh/id_rsa\"\n" ++
  "    chmod 0400 \"$HOME/.ssh/id_rsa\"\n" ++
  "    export GIT_SSH_COMMAND=\"$GIT_SSH_COMMAND -o IdentityFile=$HOME/.ssh/id_rsa\"\nfi\n\n" ++
  "if [ -z \"$GIT_CLONE_URL\" ] ; then\n" ++
  "    echo \"No \\$GIT_CLONE_URL specified\" >&2\n    exit 1\nfi\n\n" ++
  "find \"$SRC_DIR\" -maxdepth 1 -mindepth 1 -print0 | xargs -0 /bin/rm -rf\n\n" ++
  "set -x\ngit clone \"$GIT_CLONE_URL\" \"$SRC_DIR\"\ncd \"$SRC_DIR\"\n" ++
  "git checkout -B \"$GIT_CLONE_REF\" \"origin/$GIT_CLONE_REF\"\n"

/-- The volume-preparation script, i.e. `prepareVolumesScriptTpl` with the
template placeholders rendered (user id 33 and the two fixed directories),
exactly as `prepareVolumesContainer` executes the template. -/
def prepareVolumesScript : String :=
  "#!/bin/sh\n" ++
  "test -d /mnt/code && chown " ++ toString wwwDataUserID ++ ":" ++
    toString wwwDataUserID ++ " /mnt/code\n" ++
  "test -d /mnt/media && chown " ++ toString wwwDataUserID ++ ":" ++
    toString wwwDataUserID ++ " /mnt/media\n" ++
  "test -d " ++ knativeVarLogMountPath ++ " && chown " ++ toString wwwDataUserID ++
    ":" ++ toString wwwDataUserID ++ " " ++ knativeVarLogMountPath ++ "\n" ++
  "ln -sf ../log " ++ knativeInternalMountPath ++
    "/${POD_NAMESPACE}_${POD_NAME}_wordpress\n"

/-! ## Credential lookup tables -/

/-- `s3EnvVars`: canonical-name to backend-name map for S3 credentials. -/
def s3EnvVars (name : String) : Option String :=
  if name = "AWS_ACCESS_KEY_ID" then some "AWS_ACCESS_KEY_ID"
  else if name = "AWS_SECRET_ACCESS_KEY" then some "AWS_SECRET_ACCESS_KEY"
  else if name = "AWS_CONFIG_FILE" then some "AWS_CONFIG_FILE"
  else if name = "ENDPOINT" then some "S3_ENDPOINT"
  else none

/-- `gcsEnvVars`: canonical-name to backend-name map for GCS credentials. -/
def gcsEnvVars (name : String) : Option String :=
  if name = "GOOGLE_CREDENTIALS" then some "GOOGLE_CREDENTIALS"
  else if name = "GOOGLE_APPLICATION_CREDENTIALS" then some "GOOGLE_APPLICATION_CREDENTIALS"
  else none

/-! ## Environment composition -/

/-- The remap loop shared by both backends of `mediaEnv`: for each entry
whose name is a key of the table, emit a copy renamed to the table's target
name; drop the rest. -/
def remapEnv (table : String → Option String) : List EnvVar → List EnvVar
  | [] => []
  | e :: es =>
    match table e.name with
    | some n => { e with name := n } :: remapEnv table es
    | none => remapEnv table es

/-- `mediaEnv()`. -/
def mediaEnv (wp : Wordpress) : List EnvVar :=
  match wp.spec.mediaVolumeSpec with
  | none => []
  | some mvs =>
    let s3Part :=
      match mvs.s3VolumeSource with
      | none => []
      | some s3 =>
        { name := "STACK_MEDIA_BUCKET",
          value := s3Prefix ++ "://" ++ pathJoin s3.bucket s3.pathPrefix : EnvVar }
          :: remapEnv s3EnvVars s3.env
    let gcsPart :=
      match mvs.gcsVolumeSource with
      | none => []
      | some gcs =>
        { name := "STACK_MEDIA_BUCKET",
          value := gcsPrefix ++ "://" ++ pathJoin gcs.bucket gcs.pathPrefix : EnvVar }
          :: remapEnv gcsEnvVars gcs.env
    s3Part ++ gcsPart

/-- `routes()`. -/
def routes (wp : Wordpress) : List String :=
  match wp.spec.routes with
  | [] => [wp.mainDomain]
  | rs => rs.map (fun r => pathJoin r.domain r.path)

/-- `env()`: the main process's environment list. -/
def env (wp : Wordpress) : List EnvVar :=
  ([{ name := "WP_HOME", value := wp.homeURL },
    { name := "WP_SITEURL", value := wp.siteURL },
    { name := "WP_CORE_DIRECTORY", value := wp.spec.wordpressPathPrefix },
    { name := "STACK_ROUTES", value := String.intercalate "," (routes wp) },
    { name := "STACK_SITE_NAME", value := wp.name },
    { name := "STACK_SITE_NAMESPACE", value := wp.namespaceName }]
   ++ wp.spec.env) ++ mediaEnv wp

/-- `envFrom()`. -/
def envFrom (wp : Wordpress) : List EnvFromSource :=
  { secretRefName := wp.secretName } :: wp.spec.envFrom

/-- `gitCloneEnv()`. -/
def gitCloneEnv (wp : Wordpress) : List EnvVar :=
  match wp.spec.codeVolumeSpec with
  | none => []
  | some cvs =>
    match cvs.gitDir with
    | none => []
    | some g =>
      ([{ name := "GIT_CLONE_URL", value := g.repository },
        { name := "SRC_DIR", value := codeSrcMountPath }]
       ++ (if 0 < g.gitRef.length then [{ name := "GIT_CLONE_REF", value := g.gitRef : EnvVar }] else []))
      ++ g.env

/-! ## Source-variant predicates -/

/-- `hasMediaMounts()`: true iff one of the media mount-source variants
(persistent volume claim, host path, empty dir) is set. -/
def hasMediaMounts (wp : Wordpress) : Bool :=
  match wp.spec.mediaVolumeSpec with
  | none => false
  | some mvs =>
    mvs.persistentVolumeClaim.isSome || mvs.hostPath.isSome || mvs.emptyDir.isSome

/-- `hasCodeMounts()`: true iff one of the code-source variants (git,
persistent volume claim, host path, empty dir) is set. -/
def hasCodeMounts (wp : Wordpress) : Bool :=
  match wp.spec.codeVolumeSpec with
  | none => false
  | some cvs =>
    cvs.gitDir.isSome || cvs.persistentVolumeClaim.isSome ||
      cvs.hostPath.isSome || cvs.emptyDir.isSome

/-! ## Volume & mount planning -/

/-- `volumeMounts()`: the main process's mount list. -/
def volumeMounts (wp : Wordpress) : List VolumeMount :=
  let base : List VolumeMount :=
    { mountPath := knativeVarLogMountPath, name := knativeVarLogVolume }
      :: wp.spec.volumeMounts
  let codePart : List VolumeMount :=
    if hasCodeMounts wp then
      match wp.spec.codeVolumeSpec with
      | some cvs =>
        [{ mountPath := codeSrcMountPath, name := codeVolumeName, readOnly := cvs.readOnly },
         { mountPath := cvs.mountPath, name := codeVolumeName, readOnly := cvs.readOnly,
           subPath := cvs.contentSubPath },
         { mountPath := configMountPath, name := codeVolumeName, readOnly := true,
           subPath := cvs.configSubPath }]
      | none => []
    else []
  let mediaPart : List VolumeMount :=
    if hasMediaMounts wp then
      match wp.spec.mediaVolumeSpec with
      | some mvs =>
        let v : VolumeMount :=
          { mountPath := mvs.mountPath, name := mediaVolumeName, readOnly := mvs.readOnly }
        [if mvs.contentSubPath ≠ "" then { v with subPath := mvs.contentSubPath } else v]
      | none => []
    else []
  (base ++ codePart) ++ mediaPart

/-- `codeVolume()`: resolve the code volume by first-match priority
git > claim > hostPath > emptyDir, defaulting to an empty ephemeral dir. -/
def codeVolume (wp : Wordpress) : Volume :=
  let dflt : Volume := { name := codeVolumeName, volumeSource := { emptyDir := some {} } }
  match wp.spec.codeVolumeSpec with
  | none => dflt
  | some cvs =>
    match cvs.gitDir with
    | some g =>
      { name := codeVolumeName, volumeSource := { emptyDir := some (g.emptyDir.getD {}) } }
    | none =>
      match cvs.persistentVolumeClaim with
      | some _ =>
        { name := codeVolumeName,
          volumeSource :=
            { persistentVolumeClaim := some { claimName := wp.codePVCName } } }
      | none =>
        match cvs.hostPath with
        | some hp => { name := codeVolumeName, volumeSource := { hostPath := some hp } }
        | none =>
          match cvs.emptyDir with
          | some e => { name := codeVolumeName, volumeSource := { emptyDir := some e } }
          | none => dflt

/-- `mediaVolume()`: resolve the media volume by first-match priority
claim > hostPath > emptyDir, defaulting to an empty ephemeral dir. -/
def mediaVolume (wp : Wordpress) : Volume :=
  let dflt : Volume := { name := mediaVolumeName, volumeSource := { emptyDir := some {} } }
  match wp.spec.mediaVolumeSpec with
  | none => dflt
  | some mvs =>
    match mvs.persistentVolumeClaim with
    | some _ =>
      { name := mediaVolumeName,
        volumeSource :=
          { persistentVolumeClaim := some { claimName := wp.mediaPVCName } } }
    | none =>
      match mvs.hostPath with
      | some hp => { name := mediaVolumeName, volumeSource := { hostPath := some hp } }
      | none =>
        match mvs.emptyDir with
        | some e => { name := mediaVolumeName, volumeSource := { emptyDir := some e } }
        | none => dflt

/-- `volumes()`: the pod's volume list. -/
def volumes (wp : Wordpress) : List Volume :=
  (([{ name := knativeInternalVolume, volumeSource := { emptyDir := some {} } },
     { name := knativeVarLogVolume,
       volumeSource := { emptyDir := some { sizeLimit := some varLogSizeLimit } } }]
    ++ wp.spec.volumes)
   ++ (if hasCodeMounts wp then [codeVolume wp] else []))
  ++ (if hasMediaMounts wp then [mediaVolume wp] else [])

/-- `securityContext()`. -/
def securityContext (_wp : Wordpress) : SecurityContext :=
  { runAsUser := some wwwDataUserID, procMount := some "Default" }

/-! ## Init steps -/

/-- `gitCloneContainer()`: the code-fetch step (only built when the git
variant is set). -/
def gitCloneContainer (wp : Wordpress) : Container :=
  { name := "git",
    args := ["/bin/bash", "-c", gitCloneScript],
    image := gitCloneImage,
    env := gitCloneEnv wp,
    envFrom :=
      match wp.spec.codeVolumeSpec with
      | some cvs => match cvs.gitDir with
        | some g => g.envFrom
        | none => []
      | none => [],
    volumeMounts := [{ name := codeVolumeName, mountPath := codeSrcMountPath }],
    securityContext := some (securityContext wp) }

/-- `prepareVolumesContainer()`: the volume-preparation step. -/
def prepareVolumesContainer (wp : Wordpress) : Container :=
  let base : Container :=
    { name := "prepare-volumes",
      args := ["/bin/sh", "-c", prepareVolumesScript],
      image := prepareVolumesImage,
      volumeMounts :=
        [{ name := knativeInternalVolume, mountPath := knativeInternalMountPath },
         { name := knativeVarLogVolume, mountPath := knativeVarLogMountPath }],
      env :=
        [{ name := "POD_NAMESPACE",
           valueFrom := some { fieldRef := some { fieldPath := "metadata.namespace" } } },
         { name := "POD_NAME",
           valueFrom := some { fieldRef := some { fieldPath := "metadata.name" } } }] }
  let codePart : List VolumeMount :=
    match wp.spec.codeVolumeSpec with
    | some cvs =>
      if hasCodeMounts wp && !cvs.readOnly then
        let m : VolumeMount := { name := codeVolumeName, mountPath := "/mnt/code" }
        [if cvs.contentSubPath ≠ "" then { m with subPath := cvs.contentSubPath } else m]
      else []
    | none => []
  let mediaPart : List VolumeMount :=
    match wp.spec.mediaVolumeSpec with
    | some mvs =>
      if hasMediaMounts wp && !mvs.readOnly then
        let m : VolumeMount := { name := mediaVolumeName, mountPath := "/mnt/media" }
        [if mvs.contentSubPath ≠ "" then { m with subPath := mvs.contentSubPath } else m]
      else []
    | none => []
  { base with volumeMounts := (base.volumeMounts ++ codePart) ++ mediaPart }

/-- `installWPContainer()`: the install step, present iff a bootstrap spec
is set. -/
def installWPContainer (wp : Wordpress) : List Container :=
  match wp.spec.wordpressBootstrapSpec with
  | none => []
  | some bs =>
    [{ name := "install-wp",
       image := wp.spec.image,
       volumeMounts := volumeMounts wp,
       env := env wp ++ bs.env,
       envFrom := envFrom wp ++ bs.envFrom,
       securityContext := some (securityContext wp),
       command := ["wp-install"],
       args :=
         ["$(WORDPRESS_BOOTSTRAP_TITLE)",
          wp.homeURL,
          "$(WORDPRESS_BOOTSTRAP_USER)",
          "$(WORDPRESS_BOOTSTRAP_PASSWORD)",
          "$(WORDPRESS_BOOTSTRAP_EMAIL)"] }]

/-- `initContainers()`: the ordered init-step list. -/
def initContainers (wp : Wordpress) : List Container :=
  (((if hasMediaMounts wp || hasCodeMounts wp then [prepareVolumesContainer wp] else [])
    ++ wp.spec.initContainers)
   ++ (match wp.spec.codeVolumeSpec with
       | some cvs => match cvs.gitDir with
         | some _ => [gitCloneContainer wp]
         | none => []
       | none => []))
  ++ installWPContainer wp

/-! ## Probe defaulting -/

/-- `readinessProbe()`: pass the caller's probe through, or default to an
HTTP GET on the internal port at `/` with a forced Host header. -/
def readinessProbe (wp : Wordpress) : Probe :=
  match wp.spec.readinessProbe with
  | some p => p
  | none =>
    { handler :=
        { httpGet := some
            { path := "/",
              port := InternalHTTPPort,
              httpHeaders := [{ name := "Host", value := wp.mainDomain }] } },
      failureThreshold := 3,
      initialDelaySeconds := 10,
      periodSeconds := 5,
      successThreshold := 1,
      timeoutSeconds := 30 }

/-- `livenessProbe()`: pass the caller's probe through, or default to an
HTTP GET on the internal port at the health path, with no host override. -/
def livenessProbe (wp : Wordpress) : Probe :=
  match wp.spec.livenessProbe with
  | some p => p
  | none =>
    { handler :=
        { httpGet := some
            { path := "/-/php-ping",
              port := InternalHTTPPort } },
      failureThreshold := 3,
      initialDelaySeconds := 10,
      periodSeconds := 5,
      successThreshold := 1,
      timeoutSeconds := 30 }

/-! ## Label merging

`labels.Merge` from `k8s.io/apimachinery/pkg/labels` copies its first map
into a fresh map, then its second, later keys overwriting earlier ones. Maps
are modelled as association lists whose list order is the iteration order,
so the merge is a fold of single-key inserts. -/

/-- One Go map store `m[k] = v`: overwrite the key in place if present,
append otherwise. -/
def insertLabel (m : Labels) (kv : String × String) : Labels :=
  if (m.lookup kv.1).isSome then m.map (fun p => if p.1 = kv.1 then kv else p)
  else m ++ [kv]

/-- `labels.Merge`. -/
def mergeLabels (l1 l2 : Labels) : Labels :=
  l2.foldl insertLabel (l1.foldl insertLabel [])

/-! ## Template assembly -/

/-- The lifecycle hooks of the serving main process. -/
def webLifecycle : Lifecycle :=
  { postStart := some
      { exec := some
          { command :=
              ["/bin/sh", "-c",
               "if test -n \"$POST_START_SCRIPTS\" && command -v run-parts >/dev/null 2>&1 && test -d \"$POST_START_SCRIPTS\"  ; then run-parts --exit-on-error -v \"$POST_START_SCRIPTS\" ; fi"] } },
    preStop := some
      { exec := some
          { command :=
              ["/bin/sh", "-c",
               "if test -n \"$PRE_STOP_SCRIPTS\" && command -v run-parts >/dev/null 2>&1 && test -d \"$PRE_STOP_SCRIPTS\"  ; then run-parts --exit-on-error -v \"$PRE_STOP_SCRIPTS\" ; fi"] } } }

/-- `WebPodTemplateSpec()`: the serving workload shape. -/
def WebPodTemplateSpec (wp : Wordpress) : PodTemplateSpec :=
  let meta0 : ObjectMeta :=
    match wp.spec.podMetadata with
    | some m => m
    | none => {}
  let meta : ObjectMeta := { meta0 with labels := mergeLabels meta0.labels wp.webPodLabels }
  let wordpressContainer : Container :=
    { name := "wordpress",
      image := wp.spec.image,
      imagePullPolicy := wp.spec.imagePullPolicy,
      volumeMounts := volumeMounts wp,
      env := env wp,
      envFrom := envFrom wp,
      resources := wp.spec.resources,
      ports :=
        [{ name := "http", containerPort := InternalHTTPPort },
         { name := "prometheus", containerPort := MetricsExporterPort }],
      securityContext := some (securityContext wp),
      lifecycle := some webLifecycle,
      readinessProbe := some (readinessProbe wp),
      livenessProbe := some (livenessProbe wp) }
  { metadata := meta,
    spec :=
      { imagePullSecrets := wp.spec.imagePullSecrets,
        serviceAccountName :=
          if 0 < wp.spec.serviceAccountName.length then wp.spec.serviceAccountName else "",
        initContainers := initContainers wp,
        containers := wordpressContainer :: wp.spec.sidecars,
        volumes := volumes wp,
        nodeSelector :=
          if 0 < wp.spec.nodeSelector.length then wp.spec.nodeSelector else [],
        tolerations :=
          if 0 < wp.spec.tolerations.length then wp.spec.tolerations else [],
        affinity := wp.spec.affinity,
        priorityClassName :=
          if 0 < wp.spec.priorityClassName.length then wp.spec.priorityClassName else "" } }

/-- `JobPodTemplateSpec()`: the one-shot command workload shape. -/
def JobPodTemplateSpec (wp : Wordpress) (cmd : List String) : PodTemplateSpec :=
  let meta0 : ObjectMeta :=
    match wp.spec.podMetadata with
    | some m => m
    | none => {}
  let meta : ObjectMeta := { meta0 with labels := mergeLabels meta0.labels wp.jobPodLabels }
  let wordpressContainer : Container :=
    { name := "wp-cli",
      image := wp.spec.image,
      imagePullPolicy := wp.spec.imagePullPolicy,
      args := cmd,
      volumeMounts := volumeMounts wp,
      env := env wp,
      envFrom := envFrom wp,
      securityContext := some (securityContext wp) }
  { metadata := meta,
    spec :=
      { imagePullSecrets := wp.spec.imagePullSecrets,
        serviceAccountName :=
          if 0 < wp.spec.serviceAccountName.length then wp.spec.serviceAccountName else "",
        restartPolicy := "Never",
        initContainers := initContainers wp,
        containers := wordpressContainer :: wp.spec.sidecars,
        volumes := volumes wp,
        nodeSelector :=
          if 0 < wp.spec.nodeSelector.length then wp.spec.nodeSelector else [],
        tolerations :=
          if 0 < wp.spec.tolerations.length then wp.spec.tolerations else [],
        affinity := wp.spec.affinity,
        priorityClassName :=
          if 0 < wp.spec.priorityClassName.length then wp.spec.priorityClassName else "",
        securityContext := some { fsGroup := some wwwDataUserID } } }

/-! ## Helper lemmas -/

/-- The remap loop emits exactly the entries whose canonical name is a key
of the table, renamed to the table's target name, in input order. -/
theorem remapEnv_eq_filterMap (t : String → Option String) (l : List EnvVar) :
    remapEnv t l =
      l.filterMap (fun e => (t e.name).map (fun n => { e with name := n })) := by
  induction l with
  | nil => rfl
  | cons e es ih => cases h : t e.name <;> simp [remapEnv, h, ih]

/-- Whatever variant wins, the code volume carries the code volume name. -/
theorem codeVolume_name (wp : Wordpress) : (codeVolume wp).name = codeVolumeName := by
  unfold codeVolume
  rcases wp.spec.codeVolumeSpec with _ | ⟨gd, pvc, hp, ed, mp, c1, c2, ro⟩
  · rfl
  · rcases gd with _ | g
    · rcases pvc with _ | p
      · rcases hp with _ | q
        · rcases ed with _ | e <;> rfl
        · rfl
      · rfl
    · rfl

/-- Whatever variant wins, the media volume carries the media volume name. -/
theorem mediaVolume_name (wp : Wordpress) : (mediaVolume wp).name = mediaVolumeName := by
  unfold mediaVolume
  rcases wp.spec.mediaVolumeSpec with _ | ⟨s3, gcs, pvc, hp, ed, mp, c1, ro⟩
  · rfl
  · rcases pvc with _ | p
    · rcases hp with _ | q
      · rcases ed with _ | e <;> rfl
      · rfl
    · rfl

/-! ## Concrete sample intents (used by witnesses and counterexamples) -/

/-- An intent whose media source sets only the S3 backend descriptor and no
mount-source variant. -/
def sampleS3Only : Wordpress :=
  { spec :=
      { mediaVolumeSpec := some
          { s3VolumeSource := some
              { bucket := "b", pathPrefix := "p",
                env := [{ name := "ENDPOINT", value := "http://minio:9000" },
                        { name := "UNKNOWN_NAME", value := "x" }] },
            mountPath := "/app/web/wp-content/uploads" } } }

/-- An intent with both the git and the claim code-source variants set. -/
def sampleGitAndClaim : Wordpress :=
  { codePVCName := "mysite-code",
    spec :=
      { codeVolumeSpec := some
          { gitDir := some { repository := "https://example/repo.git", gitRef := "main" },
            persistentVolumeClaim := some "pvc-spec",
            mountPath := "/app/web" } } }

/-- An intent whose code source is present but sets no variant at all. -/
def sampleNoCodeVariant : Wordpress :=
  { spec := { codeVolumeSpec := some { mountPath := "/app/web" } } }

/-! ## Claim C2 -/

/-- C2: for every intent the init-step list is exactly the volume-prep step
(present iff code or media mounts are present), then the user-supplied init
containers verbatim and in order, then the code-fetch step (present iff the
git variant is set), then the install step (present iff a bootstrap spec is
set); the stated strict orderings follow from this concatenation. -/
theorem c2_init_step_order (wp : Wordpress) :
    initContainers wp =
      (((if hasMediaMounts wp || hasCodeMounts wp then [prepareVolumesContainer wp] else [])
        ++ wp.spec.initContainers)
       ++ (if (wp.spec.codeVolumeSpec.bind CodeVolumeSpec.gitDir).isSome
           then [gitCloneContainer wp] else []))
      ++ (if wp.spec.wordpressBootstrapSpec.isSome then installWPContainer wp else [])
    ∧ (installWPContainer wp).length =
        (if wp.spec.wordpressBootstrapSpec.isSome then 1 else 0) := by
  constructor
  · rcases h : wp.spec.codeVolumeSpec with _ | cvs
    · rcases hb : wp.spec.wordpressBootstrapSpec with _ | bs <;>
        simp [initContainers, installWPContainer, h, hb]
    · rcases hg : cvs.gitDir with _ | g <;>
        rcases hb : wp.spec.wordpressBootstrapSpec with _ | bs <;>
        simp [initContainers, installWPContainer, h, hg, hb]
  · rcases hb : wp.spec.wordpressBootstrapSpec with _ | bs <;>
      simp [installWPContainer, hb]

/-! ## Claim C3 -/

/-- C3: the main process's environment list is exactly the six built-in
variables in the fixed order (home URL, site URL, core directory,
comma-joined routes, site name, site namespace), then the user-supplied
entries verbatim, then the media-derived variables; no name deduplication
happens, so the list length is the exact sum of the three parts. -/
theorem c3_env_order_no_dedup (wp : Wordpress) :
    env wp =
      ([{ name := "WP_HOME", value := wp.homeURL },
        { name := "WP_SITEURL", value := wp.siteURL },
        { name := "WP_CORE_DIRECTORY", value := wp.spec.wordpressPathPrefix },
        { name := "STACK_ROUTES", value := String.intercalate "," (routes wp) },
        { name := "STACK_SITE_NAME", value := wp.name },
        { name := "STACK_SITE_NAMESPACE", value := wp.namespaceName }]
       ++ wp.spec.env) ++ mediaEnv wp
    ∧ (env wp).length = 6 + wp.spec.env.length + (mediaEnv wp).length := by
  refine ⟨rfl, ?_⟩
  simp [env]
  omega

/-! ## Claim C5 -/

/-- C5: the `STACK_ROUTES` variable of the main process equals the canonical
primary domain when no explicit route is given, and the comma-joined
`domain/path` list (Go path join of domain and path) in input order
otherwise. -/
theorem c5_stack_routes (wp : Wordpress) :
    (env wp).find? (fun e => e.name == "STACK_ROUTES") =
      some { name := "STACK_ROUTES",
             value :=
               if wp.spec.routes.isEmpty then wp.mainDomain
               else String.intercalate ","
                 (wp.spec.routes.map (fun r => pathJoin r.domain r.path)) } := by
  have hfind : (env wp).find? (fun e => e.name == "STACK_ROUTES") =
      some { name := "STACK_ROUTES", value := String.intercalate "," (routes wp) } := by
    simp [env, List.find?]
  rw [hfind]
  cases h : wp.spec.routes with
  | nil =>
    have hr : routes wp = [wp.mainDomain] := by simp [routes, h]
    rw [hr]
    rfl
  | cons r rs => simp [routes, h]

/-! ## Claim C1 (corrected) -/

/-- C1 counterexample: for the intent whose media source sets only the S3
backend descriptor (no mount-source variant), no media volume is resolved at
all — the volume list of the resolved workload has no entry named `media`
and the main process's mount list has no media mount, contradicting the
claimed defaulting to ephemeral storage. -/
theorem c1_counterexample_backend_only_no_media :
    (sampleS3Only.spec.mediaVolumeSpec.map
        (fun mvs => mvs.s3VolumeSource.isSome &&
          (mvs.persistentVolumeClaim.isNone && (mvs.hostPath.isNone && mvs.emptyDir.isNone))))
      = some true
    ∧ (WebPodTemplateSpec sampleS3Only).spec.volumes = volumes sampleS3Only
    ∧ (volumes sampleS3Only).filter (fun v => v.name == mediaVolumeName) = []
    ∧ (volumeMounts sampleS3Only).filter (fun m => m.name == mediaVolumeName) = [] :=
  ⟨rfl, rfl, by decide, by decide⟩

/-- C1 amended: for every intent whose media source sets a backend
descriptor (S3 or GCS) but none of the mount-source variants, no media
volume and no media mount are materialized at all: the media-mount predicate
is false, and every volume or mount entry carrying the media volume name is
one the caller supplied verbatim. The backend descriptor alone contributes
environment variables only. -/
theorem c1_amended_backend_only_no_media (wp : Wordpress) (mvs : MediaVolumeSpec)
    (hm : wp.spec.mediaVolumeSpec = some mvs)
    (_hb : mvs.s3VolumeSource.isSome ∨ mvs.gcsVolumeSource.isSome)
    (h1 : mvs.persistentVolumeClaim = none)
    (h2 : mvs.hostPath = none)
    (h3 : mvs.emptyDir = none) :
    hasMediaMounts wp = false
    ∧ (WebPodTemplateSpec wp).spec.volumes = volumes wp
    ∧ (volumes wp).filter (fun v => v.name == mediaVolumeName) =
        wp.spec.volumes.filter (fun v => v.name == mediaVolumeName)
    ∧ (volumeMounts wp).filter (fun m => m.name == mediaVolumeName) =
        wp.spec.volumeMounts.filter (fun m => m.name == mediaVolumeName) := by
  have hmm : hasMediaMounts wp = false := by
    simp [hasMediaMounts, hm, h1, h2, h3]
  refine ⟨hmm, rfl, ?_, ?_⟩
  · cases hc : hasCodeMounts wp <;>
      simp [volumes, hmm, hc, List.filter_append, codeVolume_name,
        codeVolumeName, mediaVolumeName, knativeInternalVolume, knativeVarLogVolume]
  · rcases hcv : wp.spec.codeVolumeSpec with _ | cvs <;>
      cases hc : hasCodeMounts wp <;>
      simp [volumeMounts, hmm, hc, hcv, List.filter_append,
        codeVolumeName, mediaVolumeName, knativeVarLogVolume]

/-- C1 witness: the amended statement instantiated at the S3-only sample. -/
theorem c1_amended_backend_only_no_media_witness :
    hasMediaMounts sampleS3Only = false
    ∧ (WebPodTemplateSpec sampleS3Only).spec.volumes = volumes sampleS3Only
    ∧ (volumes sampleS3Only).filter (fun v => v.name == mediaVolumeName) =
        sampleS3Only.spec.volumes.filter (fun v => v.name == mediaVolumeName)
    ∧ (volumeMounts sampleS3Only).filter (fun m => m.name == mediaVolumeName) =
        sampleS3Only.spec.volumeMounts.filter (fun m => m.name == mediaVolumeName) :=
  c1_amended_backend_only_no_media sampleS3Only _ rfl (Or.inl rfl) rfl rfl rfl

/-! ## Claim C6 -/

/-- C6: with an S3 (resp. GCS) backend descriptor and the other backend
absent, the media-derived environment is exactly one bucket variable whose
value is the scheme prefix, `://` and the joined bucket and path prefix,
followed by exactly those credential entries whose canonical name is a key
of the per-backend lookup table, renamed to the table's target name and in
input order; all other entries are dropped. -/
theorem c6_media_env_bucket_and_remap (wp : Wordpress) :
    (∀ mvs s3, wp.spec.mediaVolumeSpec = some mvs → mvs.s3VolumeSource = some s3 →
        mvs.gcsVolumeSource = none →
        mediaEnv wp =
          { name := "STACK_MEDIA_BUCKET",
            value := s3Prefix ++ "://" ++ pathJoin s3.bucket s3.pathPrefix : EnvVar }
            :: s3.env.filterMap (fun e => (s3EnvVars e.name).map (fun n => { e with name := n })))
    ∧ (∀ mvs gcs, wp.spec.mediaVolumeSpec = some mvs → mvs.s3VolumeSource = none →
        mvs.gcsVolumeSource = some gcs →
        mediaEnv wp =
          { name := "STACK_MEDIA_BUCKET",
            value := gcsPrefix ++ "://" ++ pathJoin gcs.bucket gcs.pathPrefix : EnvVar }
            :: gcs.env.filterMap (fun e => (gcsEnvVars e.name).map (fun n => { e with name := n }))) := by
  constructor
  · intro mvs s3 hm hs hg
    simp [mediaEnv, hm, hs, hg, remapEnv_eq_filterMap]
  · intro mvs gcs hm hs hg
    simp [mediaEnv, hm, hs, hg, remapEnv_eq_filterMap]

/-- C6 witness: at the S3-only sample, the `ENDPOINT` entry is remapped to
`S3_ENDPOINT` and the unknown entry is dropped. -/
theorem c6_media_env_bucket_and_remap_witness :
    mediaEnv sampleS3Only =
      [{ name := "STACK_MEDIA_BUCKET", value := "s3://b/p" },
       { name := "S3_ENDPOINT", value := "http://minio:9000" }] := by
  have h := (c6_media_env_bucket_and_remap sampleS3Only).1 _ _ rfl rfl rfl
  rw [h]
  decide

/-! ## Claim C7 -/

/-- C7: caller-supplied probes pass through unchanged; with no caller
probe, readiness defaults to an HTTP GET on port 8080 at `/` with a Host
header equal to the canonical primary domain, liveness defaults to an HTTP
GET on the same port at the distinct health path with no header, and both
defaults use failure threshold 3, initial delay 10s, period 5s, success
threshold 1, timeout 30s. -/
theorem c7_probe_defaulting (wp : Wordpress) :
    (∀ p, wp.spec.readinessProbe = some p → readinessProbe wp = p)
    ∧ (∀ p, wp.spec.livenessProbe = some p → livenessProbe wp = p)
    ∧ (wp.spec.readinessProbe = none →
        readinessProbe wp =
          { handler :=
              { httpGet :=
                  some { path := "/", port := 8080,
                         httpHeaders := [{ name := "Host", value := wp.mainDomain }] } },
            failureThreshold := 3, initialDelaySeconds := 10, periodSeconds := 5,
            successThreshold := 1, timeoutSeconds := 30 })
    ∧ (wp.spec.livenessProbe = none →
        livenessProbe wp =
          { handler :=
              { httpGet :=
                  some { path := "/-/php-ping", port := 8080, httpHeaders := [] } },
            failureThreshold := 3, initialDelaySeconds := 10, periodSeconds := 5,
            successThreshold := 1, timeoutSeconds := 30 })
    ∧ InternalHTTPPort = 8080 ∧ ("/-/php-ping" : String) ≠ "/" := by
  refine ⟨?_, ?_, ?_, ?_, rfl, by decide⟩
  · intro p h; simp [readinessProbe, h]
  · intro p h; simp [livenessProbe, h]
  · intro h; simp [readinessProbe, h, InternalHTTPPort]
  · intro h; simp [livenessProbe, h, InternalHTTPPort]

/-- An intent with no caller probes and a known canonical domain. -/
def sampleDefaultProbes : Wordpress := { mainDomain := "example.com" }

/-- A caller-supplied probe used to check pass-through. -/
def customProbe : Probe :=
  { handler := { exec := some { command := ["/bin/true"] } },
    failureThreshold := 7, initialDelaySeconds := 1, periodSeconds := 2,
    successThreshold := 3, timeoutSeconds := 4 }

/-- An intent with a caller-supplied readiness probe. -/
def sampleCustomProbe : Wordpress :=
  { spec := { readinessProbe := some customProbe } }

/-- C7 witness: the defaults at a concrete domain, and pass-through of a
concrete caller probe. -/
theorem c7_probe_defaulting_witness :
    readinessProbe sampleDefaultProbes =
      { handler :=
          { httpGet :=
              some { path := "/", port := 8080,
                     httpHeaders := [{ name := "Host", value := "example.com" }] } },
        failureThreshold := 3, initialDelaySeconds := 10, periodSeconds := 5,
        successThreshold := 1, timeoutSeconds := 30 }
    ∧ livenessProbe sampleDefaultProbes =
      { handler :=
          { httpGet :=
              some { path := "/-/php-ping", port := 8080, httpHeaders := [] } },
        failureThreshold := 3, initialDelaySeconds := 10, periodSeconds := 5,
        successThreshold := 1, timeoutSeconds := 30 }
    ∧ readinessProbe sampleCustomProbe = customProbe :=
  ⟨(c7_probe_defaulting sampleDefaultProbes).2.2.1 rfl,
   (c7_probe_defaulting sampleDefaultProbes).2.2.2.1 rfl,
   (c7_probe_defaulting sampleCustomProbe).1 customProbe rfl⟩

/-! ## Claim C10 -/

/-- An intent with both the S3 and the GCS backend descriptors set. -/
def sampleBothBackends : Wordpress :=
  { spec :=
      { mediaVolumeSpec := some
          { s3VolumeSource := some
              { bucket := "b", pathPrefix := "p",
                env := [{ name := "AWS_ACCESS_KEY_ID", value := "id" }] },
            gcsVolumeSource := some
              { bucket := "g",
                env := [{ name := "GOOGLE_CREDENTIALS", value := "cred" },
                        { name := "OTHER", value := "o" }] },
            mountPath := "/app/web/wp-content/uploads" } } }

/-- C10: with both backend descriptors set, the media-derived environment is
the whole S3 section (its bucket variable, then its remapped credentials)
followed by the whole GCS section (a second bucket variable with the same
name, then its remapped credentials) — no priority picks a single winner. -/
theorem c10_both_backends_env (wp : Wordpress) (mvs : MediaVolumeSpec)
    (s3 : S3VolumeSource) (gcs : GCSVolumeSource)
    (hm : wp.spec.mediaVolumeSpec = some mvs)
    (hs : mvs.s3VolumeSource = some s3)
    (hg : mvs.gcsVolumeSource = some gcs) :
    mediaEnv wp =
      ({ name := "STACK_MEDIA_BUCKET",
         value := s3Prefix ++ "://" ++ pathJoin s3.bucket s3.pathPrefix : EnvVar }
        :: s3.env.filterMap (fun e => (s3EnvVars e.name).map (fun n => { e with name := n })))
      ++ ({ name := "STACK_MEDIA_BUCKET",
            value := gcsPrefix ++ "://" ++ pathJoin gcs.bucket gcs.pathPrefix : EnvVar }
           :: gcs.env.filterMap (fun e => (gcsEnvVars e.name).map (fun n => { e with name := n }))) := by
  simp [mediaEnv, hm, hs, hg, remapEnv_eq_filterMap]

/-- C10 witness: both backend sections at a concrete intent, s3 first. -/
theorem c10_both_backends_env_witness :
    mediaEnv sampleBothBackends =
      [{ name := "STACK_MEDIA_BUCKET", value := "s3://b/p" },
       { name := "AWS_ACCESS_KEY_ID", value := "id" },
       { name := "STACK_MEDIA_BUCKET", value := "gs://g" },
       { name := "GOOGLE_CREDENTIALS", value := "cred" }] := by
  have h := c10_both_backends_env sampleBothBackends _ _ _ rfl rfl rfl
  rw [h]
  decide

/-! ## Claim C4 -/

/-- C4: the code volume is resolved by first-match priority
git > claim > hostPath > ephemeral — a higher-priority variant silently wins
whatever the lower ones hold — and with no variant set at all there is no
code volume or mount beyond any the caller supplied verbatim, and no
code-fetch init step. -/
theorem c4_code_source_resolution (wp : Wordpress) :
    (∀ cvs g, wp.spec.codeVolumeSpec = some cvs → cvs.gitDir = some g →
        codeVolume wp =
          { name := codeVolumeName,
            volumeSource := { emptyDir := some (g.emptyDir.getD {}) } })
    ∧ (∀ cvs p, wp.spec.codeVolumeSpec = some cvs → cvs.gitDir = none →
        cvs.persistentVolumeClaim = some p →
        codeVolume wp =
          { name := codeVolumeName,
            volumeSource :=
              { persistentVolumeClaim := some { claimName := wp.codePVCName } } })
    ∧ (∀ cvs hp, wp.spec.codeVolumeSpec = some cvs → cvs.gitDir = none →
        cvs.persistentVolumeClaim = none → cvs.hostPath = some hp →
        codeVolume wp =
          { name := codeVolumeName, volumeSource := { hostPath := some hp } })
    ∧ (∀ cvs e, wp.spec.codeVolumeSpec = some cvs → cvs.gitDir = none →
        cvs.persistentVolumeClaim = none → cvs.hostPath = none → cvs.emptyDir = some e →
        codeVolume wp =
          { name := codeVolumeName, volumeSource := { emptyDir := some e } })
    ∧ ((wp.spec.codeVolumeSpec = none ∨
        ∃ cvs, wp.spec.codeVolumeSpec = some cvs ∧ cvs.gitDir = none ∧
          cvs.persistentVolumeClaim = none ∧ cvs.hostPath = none ∧ cvs.emptyDir = none) →
        hasCodeMounts wp = false
        ∧ (volumes wp).filter (fun v => v.name == codeVolumeName) =
            wp.spec.volumes.filter (fun v => v.name == codeVolumeName)
        ∧ (volumeMounts wp).filter (fun m => m.name == codeVolumeName) =
            wp.spec.volumeMounts.filter (fun m => m.name == codeVolumeName)
        ∧ initContainers wp =
            ((if hasMediaMounts wp then [prepareVolumesContainer wp] else [])
              ++ wp.spec.initContainers) ++ installWPContainer wp) := by
  refine ⟨?_, ?_, ?_, ?_, ?_⟩
  · intro cvs g hcv hg
    simp [codeVolume, hcv, hg]
  · intro cvs p hcv hg hp
    simp [codeVolume, hcv, hg, hp]
  · intro cvs hp hcv hg hpvc hh
    simp [codeVolume, hcv, hg, hpvc, hh]
  · intro cvs e hcv hg hpvc hh he
    simp [codeVolume, hcv, hg, hpvc, hh, he]
  · intro h
    have hcode : hasCodeMounts wp = false := by
      rcases h with hn | ⟨cvs, hcv, hg, hpvc, hh, he⟩
      · simp [hasCodeMounts, hn]
      · simp [hasCodeMounts, hcv, hg, hpvc, hh, he]
    refine ⟨hcode, ?_, ?_, ?_⟩
    · cases hme : hasMediaMounts wp <;>
        simp [volumes, hcode, hme, List.filter_append, mediaVolume_name,
          codeVolumeName, mediaVolumeName, knativeInternalVolume, knativeVarLogVolume]
    · rcases hmv : wp.spec.mediaVolumeSpec with _ | mvs
      · simp [volumeMounts, hcode, hmv, List.filter_append,
          codeVolumeName, knativeVarLogVolume, hasMediaMounts]
      · by_cases hcs : mvs.contentSubPath = "" <;>
          cases hme : hasMediaMounts wp <;>
          simp [volumeMounts, hcode, hmv, hme, hcs, List.filter_append,
            codeVolumeName, mediaVolumeName, knativeVarLogVolume]
    · rcases h with hn | ⟨cvs, hcv, hg, hpvc, hh, he⟩
      · simp [initContainers, hcode, hn, Bool.or_false]
      · simp [initContainers, hcode, hcv, hg, Bool.or_false]

/-- C4 witness: git wins over a simultaneously-set claim variant, and with
no variant set nothing code-related is produced. -/
theorem c4_code_source_resolution_witness :
    codeVolume sampleGitAndClaim =
      { name := codeVolumeName, volumeSource := { emptyDir := some {} } }
    ∧ hasCodeMounts sampleNoCodeVariant = false
    ∧ (volumes sampleNoCodeVariant).filter (fun v => v.name == codeVolumeName) =
        sampleNoCodeVariant.spec.volumes.filter (fun v => v.name == codeVolumeName)
    ∧ (volumeMounts sampleNoCodeVariant).filter (fun m => m.name == codeVolumeName) =
        sampleNoCodeVariant.spec.volumeMounts.filter (fun m => m.name == codeVolumeName)
    ∧ initContainers sampleNoCodeVariant =
        ((if hasMediaMounts sampleNoCodeVariant
          then [prepareVolumesContainer sampleNoCodeVariant] else [])
          ++ sampleNoCodeVariant.spec.initContainers)
         ++ installWPContainer sampleNoCodeVariant := by
  have h := (c4_code_source_resolution sampleNoCodeVariant).2.2.2.2
    (Or.inr ⟨_, rfl, rfl, rfl, rfl, rfl⟩)
  exact ⟨(c4_code_source_resolution sampleGitAndClaim).1 _ _ rfl rfl,
    h.1, h.2.1, h.2.2.1, h.2.2.2⟩

/-! ## Claim C8 (corrected) -/

/-- An intent with a code source and a caller-supplied mount that also names
the code volume. -/
def sampleUserCodeMount : Wordpress :=
  { spec :=
      { codeVolumeSpec := some
          { emptyDir := some {}, mountPath := "/app/web",
            contentSubPath := "wp", configSubPath := "cfg" },
        volumeMounts := [{ mountPath := "/extra", name := "code" }] } }

/-- C8 counterexample: with code mounts present, a caller-supplied mount
entry that also names the code volume makes the main process's mount list
contain four (not exactly three) entries naming the code volume. -/
theorem c8_counterexample_user_mount_named_code :
    hasCodeMounts sampleUserCodeMount = true
    ∧ ((volumeMounts sampleUserCodeMount).filter
        (fun m => m.name == codeVolumeName)).length = 4 :=
  ⟨rfl, by decide⟩

/-- C8 amended: with code mounts present and no caller-supplied mount
naming the code volume, the main process's mount list contains exactly three
entries naming the code volume: the raw fetch destination with the caller's
read-only mark, the content sub-path at the caller's application path with
the same mark, and the config sub-path read-only at the fixed configuration
path — all against the same volume name. -/
theorem c8_amended_three_code_mounts (wp : Wordpress) (cvs : CodeVolumeSpec)
    (hcv : wp.spec.codeVolumeSpec = some cvs)
    (hc : hasCodeMounts wp = true)
    (hu : ∀ m ∈ wp.spec.volumeMounts, m.name ≠ codeVolumeName) :
    (volumeMounts wp).filter (fun m => m.name == codeVolumeName) =
      [{ mountPath := codeSrcMountPath, name := codeVolumeName, readOnly := cvs.readOnly },
       { mountPath := cvs.mountPath, name := codeVolumeName, readOnly := cvs.readOnly,
         subPath := cvs.contentSubPath },
       { mountPath := configMountPath, name := codeVolumeName, readOnly := true,
         subPath := cvs.configSubPath }]
    ∧ ∃ c cs, (WebPodTemplateSpec wp).spec.containers = c :: cs
        ∧ c.volumeMounts = volumeMounts wp := by
  have hu' : ∀ m ∈ wp.spec.volumeMounts, ¬m.name = "code" := by
    simpa [codeVolumeName] using hu
  refine ⟨?_, _, _, rfl, rfl⟩
  cases hme : hasMediaMounts wp
  · simp [volumeMounts, hcv, hc, hme, List.filter_append,
      codeVolumeName, knativeVarLogVolume]
    exact hu'
  · rcases hmv : wp.spec.mediaVolumeSpec with _ | mvs
    · simp [volumeMounts, hcv, hc, hme, hmv, List.filter_append,
        codeVolumeName, knativeVarLogVolume]
      exact hu'
    · by_cases hcs : mvs.contentSubPath = "" <;>
        (simp [volumeMounts, hcv, hc, hme, hmv, hcs, List.filter_append,
          codeVolumeName, mediaVolumeName, knativeVarLogVolume]
         exact hu')

/-- An intent with the git code variant and no caller mount naming the code
volume. -/
def sampleCleanCodeMounts : Wordpress :=
  { spec :=
      { codeVolumeSpec := some
          { gitDir := some { repository := "https://example/repo.git" },
            mountPath := "/app/web", contentSubPath := "wp", configSubPath := "cfg" },
        volumeMounts := [{ mountPath := "/x", name := "extra" }] } }

/-- C8 witness: the amended statement at a concrete intent. -/
theorem c8_amended_three_code_mounts_witness :
    (volumeMounts sampleCleanCodeMounts).filter (fun m => m.name == codeVolumeName) =
      [{ mountPath := codeSrcMountPath, name := codeVolumeName, readOnly := false },
       { mountPath := "/app/web", name := codeVolumeName, readOnly := false,
         subPath := "wp" },
       { mountPath := configMountPath, name := codeVolumeName, readOnly := true,
         subPath := "cfg" }]
    ∧ ∃ c cs, (WebPodTemplateSpec sampleCleanCodeMounts).spec.containers = c :: cs
        ∧ c.volumeMounts = volumeMounts sampleCleanCodeMounts :=
  c8_amended_three_code_mounts sampleCleanCodeMounts _ rfl rfl (by decide)

/-! ## Claim C9: iteration-order independence of the assemblers

The only Go maps this compiler consumes are label maps (pod metadata labels
and annotations, the computed pod labels, the node selector). Their
iteration order is nondeterministic in Go; here each map is presented as an
association list in some iteration order, and we show the assembled
templates do not depend on the presentation: any two presentations of the
same maps yield outputs that agree on every map lookup and are syntactically
identical everywhere else. -/

/-- A well-formed Go map presentation has no duplicate keys. -/
abbrev keysNodup (l : Labels) : Prop := (l.map Prod.fst).Nodup

/-- `(some a).or o` keeps the first option. -/
@[simp] theorem some_or_eq {α : Type} (a : α) (o : Option α) : (some a).or o = some a := rfl

/-- A key outside the key set looks up to nothing. -/
theorem lookup_eq_none_of_not_mem_keys :
    ∀ (l : Labels) (k : String), k ∉ l.map Prod.fst → l.lookup k = none := by
  intro l
  induction l with
  | nil => intro k _; rfl
  | cons p t ih =>
    intro k hk
    obtain ⟨a, b⟩ := p
    simp only [List.map_cons, List.mem_cons, not_or] at hk
    have hne : (k == a) = false := by simp [hk.1]
    simp [List.lookup_cons, hne, ih k hk.2]

/-- Looking up after a single Go map store: the stored key now maps to the
stored value, every other key is untouched. -/
theorem lookup_insertLabel (m : Labels) (kv : String × String) (k : String) :
    (insertLabel m kv).lookup k = if k = kv.1 then some kv.2 else m.lookup k := by
  obtain ⟨a, b⟩ := kv
  have hrepl : ∀ (l : Labels),
      (l.map (fun p => if p.1 = a then (a, b) else p)).lookup k =
        if k = a then (if (l.lookup a).isSome then some b else none)
        else l.lookup k := by
    intro l
    induction l with
    | nil => simp [List.lookup]
    | cons p t ih =>
      obtain ⟨c, d⟩ := p
      by_cases hca : c = a
      · subst hca
        by_cases hk : k = c
        · subst hk
          simp [List.lookup_cons, ih]
        · have h1 : (k == c) = false := by simp [hk]
          simp [List.lookup_cons, h1, hk, ih]
      · by_cases hk : k = c
        · subst hk
          have h2 : ¬k = a := hca
          simp [List.lookup_cons, hca, h2]
        · have h1 : (k == c) = false := by simp [hk]
          have h3 : (a == c) = false := beq_eq_false_iff_ne.mpr fun h => hca h.symm
          have e1 : List.lookup a ((c, d) :: t) = List.lookup a t := by
            simp [List.lookup_cons, h3]
          have e2 : List.lookup k ((c, d) :: t) = List.lookup k t := by
            simp [List.lookup_cons, h1]
          rw [e2, e1]
          simp [List.lookup_cons, hca, h1, ih]
  unfold insertLabel
  by_cases hs : (m.lookup a).isSome
  · simp [hs, hrepl]
  · have hnone : m.lookup a = none := by
      cases h : m.lookup a with
      | none => rfl
      | some v => rw [h] at hs; simp at hs
    by_cases hk : k = a
    · subst hk
      simp [hs, List.lookup_append, hnone, List.lookup_cons]
    · have h1 : (k == a) = false := by simp [hk]
      simp [hs, List.lookup_append, List.lookup_cons, hk, h1]

/-- Folding Go map stores over a duplicate-free presentation: the presented
entries win over the accumulator, and among themselves behave like lookup. -/
theorem lookup_foldl_insertLabel :
    ∀ (l : Labels), keysNodup l → ∀ (m : Labels) (k : String),
      (l.foldl insertLabel m).lookup k = (l.lookup k).or (m.lookup k) := by
  intro l
  induction l with
  | nil => intro _ m k; rfl
  | cons p t ih =>
    intro hl m k
    obtain ⟨a, b⟩ := p
    simp only [keysNodup, List.map_cons, List.nodup_cons] at hl
    rw [List.foldl_cons, ih hl.2 (insertLabel m (a, b)) k]
    by_cases hk : k = a
    · subst hk
      rw [lookup_eq_none_of_not_mem_keys t k hl.1]
      simp [lookup_insertLabel, List.lookup_cons]
    · have h1 : (k == a) = false := by simp [hk]
      simp [lookup_insertLabel, List.lookup_cons, hk, h1]

/-- Duplicate-free key sets survive permutation. -/
theorem keysNodup_of_perm {l1 l2 : Labels} (h : l1.Perm l2) (nd : keysNodup l1) :
    keysNodup l2 :=
  ((h.map Prod.fst).nodup_iff).mp nd

/-- Lookup in a duplicate-free association list is permutation-invariant. -/
theorem lookup_perm :
    ∀ {l1 l2 : Labels}, l1.Perm l2 → keysNodup l1 → ∀ (k : String),
      l1.lookup k = l2.lookup k := by
  intro l1 l2 h
  induction h with
  | nil => intro _ _; rfl
  | cons x h ih =>
    intro nd k
    obtain ⟨a, b⟩ := x
    simp only [keysNodup, List.map_cons, List.nodup_cons] at nd
    cases hk : (k == a) <;> simp [List.lookup_cons, hk, ih nd.2 k]
  | swap x y l =>
    intro nd k
    obtain ⟨a, b⟩ := x
    obtain ⟨c, d⟩ := y
    simp only [keysNodup, List.map_cons, List.nodup_cons, List.mem_cons, not_or] at nd
    have hca : ¬c = a := nd.1.1
    by_cases h1 : k = c
    · subst h1
      have h2 : (k == a) = false := by simp [hca]
      simp [List.lookup_cons, h2]
    · have h3 : (k == c) = false := by simp [h1]
      cases h4 : (k == a) <;> simp [List.lookup_cons, h3, h4]
  | trans h1 h2 ih1 ih2 =>
    intro nd k
    exact (ih1 nd k).trans (ih2 (keysNodup_of_perm h1 nd) k)

/-- Lookup through `labels.Merge`: the second map wins, then the first. -/
theorem lookup_mergeLabels (l1 l2 : Labels) (n1 : keysNodup l1) (n2 : keysNodup l2)
    (k : String) :
    (mergeLabels l1 l2).lookup k = (l2.lookup k).or (l1.lookup k) := by
  unfold mergeLabels
  rw [lookup_foldl_insertLabel l2 n2, lookup_foldl_insertLabel l1 n1]
  cases h2 : l2.lookup k <;> cases h1 : l1.lookup k <;> rfl

/-- `labels.Merge` is lookup-invariant under re-presenting either input map
in a different iteration order. -/
theorem mergeLabels_lookup_invariant (a b w w' : Labels)
    (hab : a.Perm b) (han : keysNodup a) (hw : w.Perm w') (hwn : keysNodup w)
    (k : String) :
    (mergeLabels a w).lookup k = (mergeLabels b w').lookup k := by
  rw [lookup_mergeLabels a w han hwn,
    lookup_mergeLabels b w' (keysNodup_of_perm hab han) (keysNodup_of_perm hw hwn),
    lookup_perm hab han k, lookup_perm hw hwn k]

/-- Two label maps agree as maps when every lookup agrees. -/
def labelsEquiv (a b : Labels) : Prop := ∀ k, a.lookup k = b.lookup k

/-- Object metadata agreeing up to map iteration order. -/
def metaEquiv (a b : ObjectMeta) : Prop :=
  labelsEquiv a.labels b.labels ∧ labelsEquiv a.annotations b.annotations

/-- Pod templates agreeing up to map iteration order: the label maps and the
node selector agree as maps, and everything else is syntactically equal. -/
def podTemplateEquiv (a b : PodTemplateSpec) : Prop :=
  metaEquiv a.metadata b.metadata
  ∧ labelsEquiv a.spec.nodeSelector b.spec.nodeSelector
  ∧ { a.spec with nodeSelector := [] } = { b.spec with nodeSelector := [] }

/-- Two presentations of the same optional pod metadata: labels and
annotations are permutations of each other with duplicate-free keys. -/
def metaPerm : Option ObjectMeta → Option ObjectMeta → Prop
  | none, none => True
  | some a, some b =>
      a.labels.Perm b.labels ∧ keysNodup a.labels
      ∧ a.annotations.Perm b.annotations ∧ keysNodup a.annotations
  | _, _ => False

/-- Re-present the intent's map-valued inputs (pod metadata, computed web
and job pod labels, node selector) in a given iteration order. -/
def withMapOrder (wp : Wordpress) (pm : Option ObjectMeta) (web job ns : Labels) :
    Wordpress :=
  { wp with
    spec := { wp.spec with podMetadata := pm, nodeSelector := ns },
    webPodLabels := web,
    jobPodLabels := job }

/-- C9: compiling the same intent twice — under any two iteration orders of
the Go maps it consumes — yields equivalent serving and job templates:
identical everywhere, with the map-valued fields equal as maps. Since the
compiler is a pure function of this presentation, repeated compilation is
deterministic. -/
theorem c9_assembly_iteration_order_independent (wp : Wordpress) (cmd : List String)
    (pm pm' : Option ObjectMeta) (web web' job job' ns ns' : Labels)
    (hpm : metaPerm pm pm')
    (hweb : web.Perm web') (hwebn : keysNodup web)
    (hjob : job.Perm job') (hjobn : keysNodup job)
    (hns : ns.Perm ns') (hnsn : keysNodup ns) :
    podTemplateEquiv (WebPodTemplateSpec (withMapOrder wp pm web job ns))
      (WebPodTemplateSpec (withMapOrder wp pm' web' job' ns'))
    ∧ podTemplateEquiv (JobPodTemplateSpec (withMapOrder wp pm web job ns) cmd)
      (JobPodTemplateSpec (withMapOrder wp pm' web' job' ns') cmd) := by
  have hnsEquiv : labelsEquiv (if 0 < ns.length then ns else [])
      (if 0 < ns'.length then ns' else []) := by
    intro k
    by_cases hlen : 0 < ns.length
    · have hlen' : 0 < ns'.length := by rw [← hns.length_eq]; exact hlen
      rw [if_pos hlen, if_pos hlen']
      exact lookup_perm hns hnsn k
    · have hlen' : ¬0 < ns'.length := by rw [← hns.length_eq]; exact hlen
      rw [if_neg hlen, if_neg hlen']
  rcases pm with _ | A
  · rcases pm' with _ | B
    · refine ⟨⟨⟨?_, ?_⟩, hnsEquiv, rfl⟩, ⟨⟨?_, ?_⟩, hnsEquiv, rfl⟩⟩
      · exact fun k => mergeLabels_lookup_invariant [] [] web web'
          (List.Perm.refl []) (by decide) hweb hwebn k
      · exact fun k => rfl
      · exact fun k => mergeLabels_lookup_invariant [] [] job job'
          (List.Perm.refl []) (by decide) hjob hjobn k
      · exact fun k => rfl
    · exact False.elim hpm
  · rcases pm' with _ | B
    · exact False.elim hpm
    · obtain ⟨hab, han, haab, haan⟩ := hpm
      refine ⟨⟨⟨?_, ?_⟩, hnsEquiv, rfl⟩, ⟨⟨?_, ?_⟩, hnsEquiv, rfl⟩⟩
      · exact fun k => mergeLabels_lookup_invariant A.labels B.labels web web'
          hab han hweb hwebn k
      · exact fun k => lookup_perm haab haan k
      · exact fun k => mergeLabels_lookup_invariant A.labels B.labels job job'
          hab han hjob hjobn k
      · exact fun k => lookup_perm haab haan k

/-- One presentation of a sample pod metadata. -/
def c9Meta1 : ObjectMeta :=
  { labels := [("a", "1"), ("b", "2")], annotations := [("x", "9")] }

/-- The same pod metadata presented in the opposite iteration order. -/
def c9Meta2 : ObjectMeta :=
  { labels := [("b", "2"), ("a", "1")], annotations := [("x", "9")] }

/-- C9 witness: the invariance theorem at a concrete intent with concrete
permuted map presentations. -/
theorem c9_assembly_iteration_order_independent_witness :
    podTemplateEquiv
      (WebPodTemplateSpec (withMapOrder {} (some c9Meta1)
        [("c", "3"), ("d", "4")] [("j", "5"), ("l", "6")] [("n", "7")]))
      (WebPodTemplateSpec (withMapOrder {} (some c9Meta2)
        [("d", "4"), ("c", "3")] [("l", "6"), ("j", "5")] [("n", "7")]))
    ∧ podTemplateEquiv
      (JobPodTemplateSpec (withMapOrder {} (some c9Meta1)
        [("c", "3"), ("d", "4")] [("j", "5"), ("l", "6")] [("n", "7")]) ["wp", "info"])
      (JobPodTemplateSpec (withMapOrder {} (some c9Meta2)
        [("d", "4"), ("c", "3")] [("l", "6"), ("j", "5")] [("n", "7")]) ["wp", "info"]) := by
  refine c9_assembly_iteration_order_independent {} ["wp", "info"]
    (some c9Meta1) (some c9Meta2) _ _ _ _ _ _ ?_ ?_ ?_ ?_ ?_ ?_ ?_
  · show _ ∧ _ ∧ _ ∧ _
    refine ⟨?_, ?_, ?_, ?_⟩ <;> decide
  all_goals decide

end WPOp
